import Mathlib

/-!
Verification of the VKGL command-scheduling and resource-binding core:
the versioned buffer reference payload (src/include/OpenGL/backend/vk_reference.h)
and the scheduler (src/src/OpenGL/backend/vk_scheduler.cpp).

Machine integers (GLuint ids) appear only in equality comparisons, never in
arithmetic, so they are modelled as Nat; equality of Nat values restricted to
the 32-bit range agrees with GLuint equality.
-/

namespace OpenGL

/-- Modelled from the spec: `OpenGL::TimeMarker` (declared in types_typedefs.h,
not under src/) is an opaque, totally ordered, monotonically comparable
timestamp; two markers compare equal iff they denote the same event instant.
Modelled as Nat. -/
abbrev TimeMarker := Nat

/-- GLuint frontend object identifier, modelled as Nat (used only for equality). -/
abbrev GLuint := Nat

/-- Address of an `Anvil::Buffer`; the payload stores it but never compares it. -/
abbrev AnvilBufferPtr := Nat

/-- Address of an `Anvil::MemoryBlock`; stored, never compared. -/
abbrev AnvilMemoryBlockPtr := Nat

/-- `OpenGL::VKBufferPayload` (vk_reference.h lines 15-55): the backend-side
payload of a versioned buffer reference. Field order follows the source. -/
structure VKBufferPayload where
  backend_buffer_creation_time_marker : TimeMarker
  backend_mem_block_creation_time_marker : TimeMarker
  buffer_ptr : AnvilBufferPtr
  frontend_object_creation_time_marker : TimeMarker
  id : GLuint
  memory_block_ptr : AnvilMemoryBlockPtr
  deriving Repr, DecidableEq

/-- `VKBufferPayload::operator==` (vk_reference.h lines 40-46): conjunction of
equality of `id` and the three time markers, in the source's order; the two
pointer fields do not participate. -/
def VKBufferPayload.opEq (a b : VKBufferPayload) : Bool :=
  a.id == b.id &&
  a.backend_buffer_creation_time_marker == b.backend_buffer_creation_time_marker &&
  a.backend_mem_block_creation_time_marker == b.backend_mem_block_creation_time_marker &&
  a.frontend_object_creation_time_marker == b.frontend_object_creation_time_marker

/-- `VKBufferPayload::operator!=` (vk_reference.h lines 48-54): disjunction of
inequality of `id` and the three time markers, in the source's order. -/
def VKBufferPayload.opNe (a b : VKBufferPayload) : Bool :=
  a.id != b.id ||
  a.backend_buffer_creation_time_marker != b.backend_buffer_creation_time_marker ||
  a.backend_mem_block_creation_time_marker != b.backend_mem_block_creation_time_marker ||
  a.frontend_object_creation_time_marker != b.frontend_object_creation_time_marker

/-- Modelled from the spec: `ReferenceBase<VKBufferPayload>` (OpenGL/reference.h
is not under src/): a versioned reference owning a payload; equality semantics
live in the payload. -/
structure VKBufferReference where
  payload : VKBufferPayload
  deriving Repr, DecidableEq

/-- Modelled from the spec: cloning a versioned reference duplicates the payload
so the holder gets its own handle to the same logical resource; as a value the
clone is equal to the original reference. -/
def VKBufferReference.clone (r : VKBufferReference) : VKBufferReference :=
  { payload := r.payload }

/-- Modelled from the spec: payload of the frontend buffer reference carried by
a BufferDataCommand (the frontend buffer manager types are not under src/). The
scheduler reads its `id`, `object_creation_time` and snapshot `time_marker`
(vk_scheduler.cpp lines 144-146). -/
structure GLBufferPayload where
  id : GLuint
  object_creation_time : TimeMarker
  time_marker : TimeMarker
  deriving Repr, DecidableEq

/-- Modelled from the spec: the BUFFER_DATA command variant (the command
definitions are not under src/); carries the frontend buffer reference
(`none` models a null `buffer_reference_ptr`) and the payload size in bytes. -/
structure BufferDataCommand where
  buffer_reference : Option GLBufferPayload
  size : Nat
  deriving Repr, DecidableEq

/-- Modelled from the spec: a queued command as the scheduler sees it: the
`type` tag — the C++ enum value, modelled as Nat so that, as for a C++ enum,
values outside the enumerators are representable — plus the BUFFER_DATA variant
data when the command's dynamic type is BufferDataCommand (`none` models a
failing dynamic_cast). -/
structure CommandBase where
  type : Nat
  bufferData : Option BufferDataCommand
  deriving Repr, DecidableEq

namespace CommandType

/-! Modelled from the spec: the closed `OpenGL::CommandType` enum
(types_enums.h is not under src/); tag values are assigned in the order of the
`process_command` switch (vk_scheduler.cpp lines 213-250). -/

def BUFFER_DATA : Nat := 0
def BUFFER_SUB_DATA : Nat := 1
def CLEAR : Nat := 2
def COMPILE_SHADER : Nat := 3
def COMPRESSED_TEX_IMAGE_1D : Nat := 4
def COMPRESSED_TEX_IMAGE_2D : Nat := 5
def COMPRESSED_TEX_IMAGE_3D : Nat := 6
def COMPRESSED_TEX_SUB_IMAGE_1D : Nat := 7
def COMPRESSED_TEX_SUB_IMAGE_2D : Nat := 8
def COMPRESSED_TEX_SUB_IMAGE_3D : Nat := 9
def COPY_BUFFER_SUB_DATA : Nat := 10
def COPY_TEX_IMAGE_1D : Nat := 11
def COPY_TEX_IMAGE_2D : Nat := 12
def COPY_TEX_SUB_IMAGE_1D : Nat := 13
def COPY_TEX_SUB_IMAGE_2D : Nat := 14
def COPY_TEX_SUB_IMAGE_3D : Nat := 15
def DRAW_ARRAYS : Nat := 16
def DRAW_ELEMENTS : Nat := 17
def DRAW_RANGE_ELEMENTS : Nat := 18
def FINISH : Nat := 19
def FLUSH : Nat := 20
def FLUSH_MAPPED_BUFFER_RANGE : Nat := 21
def GET_BUFFER_SUB_DATA : Nat := 22
def GET_COMPRESSED_TEX_IMAGE : Nat := 23
def GET_TEXTURE_IMAGE : Nat := 24
def LINK_PROGRAM : Nat := 25
def MAP_BUFFER : Nat := 26
def MULTI_DRAW_ARRAYS : Nat := 27
def MULTI_DRAW_ELEMENTS : Nat := 28
def READ_PIXELS : Nat := 29
def TEX_IMAGE_1D : Nat := 30
def TEX_IMAGE_2D : Nat := 31
def TEX_IMAGE_3D : Nat := 32
def TEX_SUB_IMAGE_1D : Nat := 33
def TEX_SUB_IMAGE_2D : Nat := 34
def TEX_SUB_IMAGE_3D : Nat := 35
def UNMAP_BUFFER : Nat := 36
def VALIDATE_PROGRAM : Nat := 37

end CommandType

/-- The 38 command tags enumerated by the `process_command` switch, in switch
order. -/
def enumeratedCommandTypes : List Nat :=
  [CommandType.BUFFER_DATA, CommandType.BUFFER_SUB_DATA, CommandType.CLEAR,
   CommandType.COMPILE_SHADER, CommandType.COMPRESSED_TEX_IMAGE_1D,
   CommandType.COMPRESSED_TEX_IMAGE_2D, CommandType.COMPRESSED_TEX_IMAGE_3D,
   CommandType.COMPRESSED_TEX_SUB_IMAGE_1D, CommandType.COMPRESSED_TEX_SUB_IMAGE_2D,
   CommandType.COMPRESSED_TEX_SUB_IMAGE_3D, CommandType.COPY_BUFFER_SUB_DATA,
   CommandType.COPY_TEX_IMAGE_1D, CommandType.COPY_TEX_IMAGE_2D,
   CommandType.COPY_TEX_SUB_IMAGE_1D, CommandType.COPY_TEX_SUB_IMAGE_2D,
   CommandType.COPY_TEX_SUB_IMAGE_3D, CommandType.DRAW_ARRAYS,
   CommandType.DRAW_ELEMENTS, CommandType.DRAW_RANGE_ELEMENTS, CommandType.FINISH,
   CommandType.FLUSH, CommandType.FLUSH_MAPPED_BUFFER_RANGE,
   CommandType.GET_BUFFER_SUB_DATA, CommandType.GET_COMPRESSED_TEX_IMAGE,
   CommandType.GET_TEXTURE_IMAGE, CommandType.LINK_PROGRAM, CommandType.MAP_BUFFER,
   CommandType.MULTI_DRAW_ARRAYS, CommandType.MULTI_DRAW_ELEMENTS,
   CommandType.READ_PIXELS, CommandType.TEX_IMAGE_1D, CommandType.TEX_IMAGE_2D,
   CommandType.TEX_IMAGE_3D, CommandType.TEX_SUB_IMAGE_1D,
   CommandType.TEX_SUB_IMAGE_2D, CommandType.TEX_SUB_IMAGE_3D,
   CommandType.UNMAP_BUFFER, CommandType.VALIDATE_PROGRAM]

/-- Modelled from the spec: the `IVKBufferManager` interface the scheduler
consumes (its header is not under src/): the two time-marker getters, and
`acquire_object` which may fail to produce a reference (`none`). -/
structure IVKBufferManager where
  get_tot_buffer_time_marker : GLuint → TimeMarker → TimeMarker
  get_tot_memory_block_time_marker : GLuint → TimeMarker → TimeMarker
  acquire_object : GLuint → TimeMarker → TimeMarker → TimeMarker → Option VKBufferReference

/-- `OpenGL::NodeIO` (source name; spelled `NodeIo` here): one frame-graph
resource binding = (cloned versioned reference, byte start offset, byte
length), as constructed at vk_scheduler.cpp lines 170-181. -/
structure NodeIo where
  reference : VKBufferReference
  start_offset : Nat
  size : Nat
  deriving Repr, DecidableEq

/-- `OpenGL::VKFrameGraphNodeCreateInfo` as filled by
`process_buffer_data_command`: the ordered input and output binding lists and
the consumed command. -/
structure VKFrameGraphNodeCreateInfo where
  inputs : List NodeIo
  outputs : List NodeIo
  command : CommandBase
  deriving Repr, DecidableEq

/-- Modelled from the spec: the frame-graph node spawned from a create info
(`VKNodes::BufferData::create` is not under src/); the node is determined by
its create info. -/
abbrev VKFrameGraphNode := VKFrameGraphNodeCreateInfo

/-- Modelled from the spec: `VKFrameGraph::add_node` takes ownership of a node
and inserts it; the graph is modelled as the list of its nodes in insertion
order. -/
def VKFrameGraph.add_node (g : List VKFrameGraphNode) (n : VKFrameGraphNode) :
    List VKFrameGraphNode :=
  g ++ [n]

/-- Modelled from the spec: how a handler invocation observably ends. `ok` is
normal completion; `assertFail` is a vkgl_assert / vkgl_assert_fail trap (a
fatal error that terminates the process); `notImplemented` is the dedicated
vkgl_not_implemented "not yet supported" trap, which spec section 7 requires to
be distinguishable from a true assertion failure. The three macros are not
under src/. -/
inductive SchedulerOutcome where
  | ok
  | assertFail
  | notImplemented
  deriving Repr, DecidableEq

/-- One call made by the scheduler into the backend buffer manager, with the
arguments passed. -/
inductive ManagerCall where
  | getTotBufferTimeMarker (id : GLuint) (creation : TimeMarker)
  | getTotMemoryBlockTimeMarker (id : GLuint) (creation : TimeMarker)
  | acquireObject (id : GLuint) (creation : TimeMarker)
      (buf_marker : TimeMarker) (mem_marker : TimeMarker)
  deriving Repr, DecidableEq

/-- Result of one handler or dispatch invocation: how it ended, the frame graph
afterwards (unchanged when the invocation trapped before `add_node`), and the
ordered trace of backend-buffer-manager calls it made. -/
structure SchedulerResult where
  outcome : SchedulerOutcome
  graph : List VKFrameGraphNode
  calls : List ManagerCall
  deriving Repr, DecidableEq

/-- The relative evaluation order a C++ compiler chooses for the two getter
calls that appear as sibling arguments of the `acquire_object` call
(vk_scheduler.cpp lines 150-155). The C++ standard leaves sibling function
arguments indeterminately sequenced: either getter may run first, but each
runs exactly once and both complete before `acquire_object`'s body. -/
inductive ArgEvalOrder where
  | leftToRight
  | rightToLeft
  deriving Repr, DecidableEq

/-- The backend-manager call trace the buffer-data handler emits for frontend
payload `fe` under a given argument evaluation order: the two getters in the
compiler-chosen order, then `acquire_object` on the same id and creation marker
with the two getter results. -/
def bufferDataManagerCalls (order : ArgEvalOrder) (mgr : IVKBufferManager)
    (fe : GLBufferPayload) : List ManagerCall :=
  (match order with
   | .leftToRight =>
     [ManagerCall.getTotBufferTimeMarker fe.id fe.object_creation_time,
      ManagerCall.getTotMemoryBlockTimeMarker fe.id fe.object_creation_time]
   | .rightToLeft =>
     [ManagerCall.getTotMemoryBlockTimeMarker fe.id fe.object_creation_time,
      ManagerCall.getTotBufferTimeMarker fe.id fe.object_creation_time]) ++
  [ManagerCall.acquireObject fe.id fe.object_creation_time
    (mgr.get_tot_buffer_time_marker fe.id fe.object_creation_time)
    (mgr.get_tot_memory_block_time_marker fe.id fe.object_creation_time)]

/-- `VKScheduler::process_buffer_data_command` (vk_scheduler.cpp lines
134-192): downcast the command (assert on failure), read id / creation marker /
snapshot marker from the frontend buffer reference (assert when null), query
the two to-date backend markers, acquire the backend reference (assert when the
manager produces none), build a create info with one input and one output
binding — each a clone of the backend reference covering bytes 0..size — move
the command in, and add the spawned node to the frame graph. The two getter
calls are sibling arguments of the `acquire_object` call, so their relative
evaluation order is compiler-chosen; the function is parameterized by that
order, which affects only the call trace, never the outcome or the graph. -/
def VKScheduler.process_buffer_data_command (order : ArgEvalOrder)
    (mgr : IVKBufferManager)
    (graph : List VKFrameGraphNode) (cmd : CommandBase) : SchedulerResult :=
  match cmd.bufferData with
  | none => { outcome := .assertFail, graph := graph, calls := [] }
  | some bd =>
    match bd.buffer_reference with
    | none => { outcome := .assertFail, graph := graph, calls := [] }
    | some fe =>
      let frontend_buffer_creation_time := fe.object_creation_time
      let frontend_buffer_id := fe.id
      let tot_buffer_marker :=
        mgr.get_tot_buffer_time_marker frontend_buffer_id frontend_buffer_creation_time
      let tot_mem_block_marker :=
        mgr.get_tot_memory_block_time_marker frontend_buffer_id frontend_buffer_creation_time
      let calls : List ManagerCall := bufferDataManagerCalls order mgr fe
      match mgr.acquire_object frontend_buffer_id frontend_buffer_creation_time
              tot_buffer_marker tot_mem_block_marker with
      | none => { outcome := .assertFail, graph := graph, calls := calls }
      | some backend_buffer_reference =>
        let node : VKFrameGraphNode :=
          { inputs := [{ reference := backend_buffer_reference.clone,
                         start_offset := 0, size := bd.size }],
            outputs := [{ reference := backend_buffer_reference.clone,
                          start_offset := 0, size := bd.size }],
            command := cmd }
        { outcome := .ok, graph := VKFrameGraph.add_node graph node, calls := calls }

/-- The result every intentionally unimplemented handler produces: the
vkgl_not_implemented trap, with the frame graph untouched and no backend
manager call made. -/
def notImplementedResult (graph : List VKFrameGraphNode) : SchedulerResult :=
  { outcome := .notImplemented, graph := graph, calls := [] }

/-- `VKScheduler::process_buffer_sub_data_command` (line 194): vkgl_not_implemented. -/
def VKScheduler.process_buffer_sub_data_command (graph : List VKFrameGraphNode) :
    SchedulerResult :=
  notImplementedResult graph

/-- `VKScheduler::process_clear_command` (line 199): vkgl_not_implemented. -/
def VKScheduler.process_clear_command (graph : List VKFrameGraphNode) : SchedulerResult :=
  notImplementedResult graph

/-- `VKScheduler::process_compile_shader_command` (line 204): vkgl_not_implemented. -/
def VKScheduler.process_compile_shader_command (graph : List VKFrameGraphNode) : SchedulerResult :=
  notImplementedResult graph

/-- `VKScheduler::process_compressed_tex_image_1D_command` (line 264): vkgl_not_implemented. -/
def VKScheduler.process_compressed_tex_image_1D_command (graph : List VKFrameGraphNode) : SchedulerResult :=
  notImplementedResult graph

/-- `VKScheduler::process_compressed_tex_image_2D_command` (line 269): vkgl_not_implemented. -/
def VKScheduler.process_compressed_tex_image_2D_command (graph : List VKFrameGraphNode) : SchedulerResult :=
  notImplementedResult graph

/-- `VKScheduler::process_compressed_tex_image_3D_command` (line 274): vkgl_not_implemented. -/
def VKScheduler.process_compressed_tex_image_3D_command (graph : List VKFrameGraphNode) : SchedulerResult :=
  notImplementedResult graph

/-- `VKScheduler::process_compressed_tex_sub_image_1D_command` (line 279): vkgl_not_implemented. -/
def VKScheduler.process_compressed_tex_sub_image_1D_command (graph : List VKFrameGraphNode) : SchedulerResult :=
  notImplementedResult graph

/-- `VKScheduler::process_compressed_tex_sub_image_2D_command` (line 284): vkgl_not_implemented. -/
def VKScheduler.process_compressed_tex_sub_image_2D_command (graph : List VKFrameGraphNode) : SchedulerResult :=
  notImplementedResult graph

/-- `VKScheduler::process_compressed_tex_sub_image_3D_command` (line 289): vkgl_not_implemented. -/
def VKScheduler.process_compressed_tex_sub_image_3D_command (graph : List VKFrameGraphNode) : SchedulerResult :=
  notImplementedResult graph

/-- `VKScheduler::process_copy_buffer_sub_data_command` (line 294): vkgl_not_implemented. -/
def VKScheduler.process_copy_buffer_sub_data_command (graph : List VKFrameGraphNode) : SchedulerResult :=
  notImplementedResult graph

/-- `VKScheduler::process_copy_tex_image_1D_command` (line 299): vkgl_not_implemented. -/
def VKScheduler.process_copy_tex_image_1D_command (graph : List VKFrameGraphNode) : SchedulerResult :=
  notImplementedResult graph

/-- `VKScheduler::process_copy_tex_image_2D_command` (line 304): vkgl_not_implemented. -/
def VKScheduler.process_copy_tex_image_2D_command (graph : List VKFrameGraphNode) : SchedulerResult :=
  notImplementedResult graph

/-- `VKScheduler::process_copy_tex_sub_image_1D_command` (line 309): vkgl_not_implemented. -/
def VKScheduler.process_copy_tex_sub_image_1D_command (graph : List VKFrameGraphNode) : SchedulerResult :=
  notImplementedResult graph

/-- `VKScheduler::process_copy_tex_sub_image_2D_command` (line 314): vkgl_not_implemented. -/
def VKScheduler.process_copy_tex_sub_image_2D_command (graph : List VKFrameGraphNode) : SchedulerResult :=
  notImplementedResult graph

/-- `VKScheduler::process_copy_tex_sub_image_3D_command` (line 319): vkgl_not_implemented. -/
def VKScheduler.process_copy_tex_sub_image_3D_command (graph : List VKFrameGraphNode) : SchedulerResult :=
  notImplementedResult graph

/-- `VKScheduler::process_draw_arrays_command` (line 324): vkgl_not_implemented. -/
def VKScheduler.process_draw_arrays_command (graph : List VKFrameGraphNode) : SchedulerResult :=
  notImplementedResult graph

/-- `VKScheduler::process_draw_elements_command` (line 329): vkgl_not_implemented. -/
def VKScheduler.process_draw_elements_command (graph : List VKFrameGraphNode) : SchedulerResult :=
  notImplementedResult graph

/-- `VKScheduler::process_draw_range_elements_command` (line 334): vkgl_not_implemented. -/
def VKScheduler.process_draw_range_elements_command (graph : List VKFrameGraphNode) : SchedulerResult :=
  notImplementedResult graph

/-- `VKScheduler::process_finish_command` (line 339): vkgl_not_implemented. -/
def VKScheduler.process_finish_command (graph : List VKFrameGraphNode) : SchedulerResult :=
  notImplementedResult graph

/-- `VKScheduler::process_flush_command` (line 344): vkgl_not_implemented. -/
def VKScheduler.process_flush_command (graph : List VKFrameGraphNode) : SchedulerResult :=
  notImplementedResult graph

/-- `VKScheduler::process_flush_mapped_buffer_range_command` (line 349): vkgl_not_implemented. -/
def VKScheduler.process_flush_mapped_buffer_range_command (graph : List VKFrameGraphNode) : SchedulerResult :=
  notImplementedResult graph

/-- `VKScheduler::process_get_buffer_sub_data_command` (line 354): vkgl_not_implemented. -/
def VKScheduler.process_get_buffer_sub_data_command (graph : List VKFrameGraphNode) : SchedulerResult :=
  notImplementedResult graph

/-- `VKScheduler::process_get_compressed_tex_image_command` (line 359): vkgl_not_implemented. -/
def VKScheduler.process_get_compressed_tex_image_command (graph : List VKFrameGraphNode) : SchedulerResult :=
  notImplementedResult graph

/-- `VKScheduler::process_get_texture_image_command` (line 364): vkgl_not_implemented. -/
def VKScheduler.process_get_texture_image_command (graph : List VKFrameGraphNode) : SchedulerResult :=
  notImplementedResult graph

/-- `VKScheduler::process_link_program_command` (line 369): vkgl_not_implemented. -/
def VKScheduler.process_link_program_command (graph : List VKFrameGraphNode) : SchedulerResult :=
  notImplementedResult graph

/-- `VKScheduler::process_map_buffer_command` (line 374): vkgl_not_implemented. -/
def VKScheduler.process_map_buffer_command (graph : List VKFrameGraphNode) : SchedulerResult :=
  notImplementedResult graph

/-- `VKScheduler::process_multi_draw_arrays_command` (line 379): vkgl_not_implemented. -/
def VKScheduler.process_multi_draw_arrays_command (graph : List VKFrameGraphNode) : SchedulerResult :=
  notImplementedResult graph

/-- `VKScheduler::process_multi_draw_elements_command` (line 384): vkgl_not_implemented. -/
def VKScheduler.process_multi_draw_elements_command (graph : List VKFrameGraphNode) : SchedulerResult :=
  notImplementedResult graph

/-- `VKScheduler::process_read_pixels_command` (line 389): vkgl_not_implemented. -/
def VKScheduler.process_read_pixels_command (graph : List VKFrameGraphNode) : SchedulerResult :=
  notImplementedResult graph

/-- `VKScheduler::process_tex_image_1D_command` (line 394): vkgl_not_implemented. -/
def VKScheduler.process_tex_image_1D_command (graph : List VKFrameGraphNode) : SchedulerResult :=
  notImplementedResult graph

/-- `VKScheduler::process_tex_image_2D_command` (line 399): vkgl_not_implemented. -/
def VKScheduler.process_tex_image_2D_command (graph : List VKFrameGraphNode) : SchedulerResult :=
  notImplementedResult graph

/-- `VKScheduler::process_tex_image_3D_command` (line 404): vkgl_not_implemented. -/
def VKScheduler.process_tex_image_3D_command (graph : List VKFrameGraphNode) : SchedulerResult :=
  notImplementedResult graph

/-- `VKScheduler::process_tex_sub_image_1D_command` (line 409): vkgl_not_implemented. -/
def VKScheduler.process_tex_sub_image_1D_command (graph : List VKFrameGraphNode) : SchedulerResult :=
  notImplementedResult graph

/-- `VKScheduler::process_tex_sub_image_2D_command` (line 414): vkgl_not_implemented. -/
def VKScheduler.process_tex_sub_image_2D_command (graph : List VKFrameGraphNode) : SchedulerResult :=
  notImplementedResult graph

/-- `VKScheduler::process_tex_sub_image_3D_command` (line 419): vkgl_not_implemented. -/
def VKScheduler.process_tex_sub_image_3D_command (graph : List VKFrameGraphNode) : SchedulerResult :=
  notImplementedResult graph

/-- `VKScheduler::process_unmap_buffer_command` (line 424): vkgl_not_implemented. -/
def VKScheduler.process_unmap_buffer_command (graph : List VKFrameGraphNode) : SchedulerResult :=
  notImplementedResult graph

/-- `VKScheduler::process_validate_program_command` (line 429): vkgl_not_implemented. -/
def VKScheduler.process_validate_program_command (graph : List VKFrameGraphNode) : SchedulerResult :=
  notImplementedResult graph

/-- `VKScheduler::process_command` (vk_scheduler.cpp lines 209-262): a switch
on the command's `type` tag dispatching to the handler matching the tag, with a
runtime `default:` branch executing vkgl_assert_fail() for any tag outside the
enumeration. -/
def VKScheduler.process_command (order : ArgEvalOrder) (mgr : IVKBufferManager)
    (graph : List VKFrameGraphNode) (cmd : CommandBase) : SchedulerResult :=
  if cmd.type = CommandType.BUFFER_DATA then
    VKScheduler.process_buffer_data_command order mgr graph cmd
  else if cmd.type = CommandType.BUFFER_SUB_DATA then
    VKScheduler.process_buffer_sub_data_command graph
  else if cmd.type = CommandType.CLEAR then
    VKScheduler.process_clear_command graph
  else if cmd.type = CommandType.COMPILE_SHADER then
    VKScheduler.process_compile_shader_command graph
  else if cmd.type = CommandType.COMPRESSED_TEX_IMAGE_1D then
    VKScheduler.process_compressed_tex_image_1D_command graph
  else if cmd.type = CommandType.COMPRESSED_TEX_IMAGE_2D then
    VKScheduler.process_compressed_tex_image_2D_command graph
  else if cmd.type = CommandType.COMPRESSED_TEX_IMAGE_3D then
    VKScheduler.process_compressed_tex_image_3D_command graph
  else if cmd.type = CommandType.COMPRESSED_TEX_SUB_IMAGE_1D then
    VKScheduler.process_compressed_tex_sub_image_1D_command graph
  else if cmd.type = CommandType.COMPRESSED_TEX_SUB_IMAGE_2D then
    VKScheduler.process_compressed_tex_sub_image_2D_command graph
  else if cmd.type = CommandType.COMPRESSED_TEX_SUB_IMAGE_3D then
    VKScheduler.process_compressed_tex_sub_image_3D_command graph
  else if cmd.type = CommandType.COPY_BUFFER_SUB_DATA then
    VKScheduler.process_copy_buffer_sub_data_command graph
  else if cmd.type = CommandType.COPY_TEX_IMAGE_1D then
    VKScheduler.process_copy_tex_image_1D_command graph
  else if cmd.type = CommandType.COPY_TEX_IMAGE_2D then
    VKScheduler.process_copy_tex_image_2D_command graph
  else if cmd.type = CommandType.COPY_TEX_SUB_IMAGE_1D then
    VKScheduler.process_copy_tex_sub_image_1D_command graph
  else if cmd.type = CommandType.COPY_TEX_SUB_IMAGE_2D then
    VKScheduler.process_copy_tex_sub_image_2D_command graph
  else if cmd.type = CommandType.COPY_TEX_SUB_IMAGE_3D then
    VKScheduler.process_copy_tex_sub_image_3D_command graph
  else if cmd.type = CommandType.DRAW_ARRAYS then
    VKScheduler.process_draw_arrays_command graph
  else if cmd.type = CommandType.DRAW_ELEMENTS then
    VKScheduler.process_draw_elements_command graph
  else if cmd.type = CommandType.DRAW_RANGE_ELEMENTS then
    VKScheduler.process_draw_range_elements_command graph
  else if cmd.type = CommandType.FINISH then
    VKScheduler.process_finish_command graph
  else if cmd.type = CommandType.FLUSH then
    VKScheduler.process_flush_command graph
  else if cmd.type = CommandType.FLUSH_MAPPED_BUFFER_RANGE then
    VKScheduler.process_flush_mapped_buffer_range_command graph
  else if cmd.type = CommandType.GET_BUFFER_SUB_DATA then
    VKScheduler.process_get_buffer_sub_data_command graph
  else if cmd.type = CommandType.GET_COMPRESSED_TEX_IMAGE then
    VKScheduler.process_get_compressed_tex_image_command graph
  else if cmd.type = CommandType.GET_TEXTURE_IMAGE then
    VKScheduler.process_get_texture_image_command graph
  else if cmd.type = CommandType.LINK_PROGRAM then
    VKScheduler.process_link_program_command graph
  else if cmd.type = CommandType.MAP_BUFFER then
    VKScheduler.process_map_buffer_command graph
  else if cmd.type = CommandType.MULTI_DRAW_ARRAYS then
    VKScheduler.process_multi_draw_arrays_command graph
  else if cmd.type = CommandType.MULTI_DRAW_ELEMENTS then
    VKScheduler.process_multi_draw_elements_command graph
  else if cmd.type = CommandType.READ_PIXELS then
    VKScheduler.process_read_pixels_command graph
  else if cmd.type = CommandType.TEX_IMAGE_1D then
    VKScheduler.process_tex_image_1D_command graph
  else if cmd.type = CommandType.TEX_IMAGE_2D then
    VKScheduler.process_tex_image_2D_command graph
  else if cmd.type = CommandType.TEX_IMAGE_3D then
    VKScheduler.process_tex_image_3D_command graph
  else if cmd.type = CommandType.TEX_SUB_IMAGE_1D then
    VKScheduler.process_tex_sub_image_1D_command graph
  else if cmd.type = CommandType.TEX_SUB_IMAGE_2D then
    VKScheduler.process_tex_sub_image_2D_command graph
  else if cmd.type = CommandType.TEX_SUB_IMAGE_3D then
    VKScheduler.process_tex_sub_image_3D_command graph
  else if cmd.type = CommandType.UNMAP_BUFFER then
    VKScheduler.process_unmap_buffer_command graph
  else if cmd.type = CommandType.VALIDATE_PROGRAM then
    VKScheduler.process_validate_program_command graph
  else
    { outcome := .assertFail, graph := graph, calls := [] }

/-- Result of one `grab_with_timeout` call observed by the worker loop: either
a dequeued command or a timeout. -/
inductive GrabResult where
  | timeout
  | got (c : CommandBase)
  deriving Repr, DecidableEq

/-- One worker-loop iteration's environment observation: what
`grab_with_timeout` returned, and the value the atomic `m_terminating` flag
shows if loaded during this iteration (the flag is written concurrently by the
destructor). -/
structure SchedulerTick where
  grab : GrabResult
  terminating : Bool
  deriving Repr, DecidableEq

/-- `VKScheduler::main_thread_entrypoint` (vk_scheduler.cpp lines 100-132) as a
function of a finite observation trace: on a timeout the flag is loaded — if
set the loop breaks, otherwise it continues; on a dequeued command the command
is passed to `process_command` (the flag is not consulted). Returns the
commands passed to `process_command`, in order, and whether the loop exited
(`true`) or merely consumed the whole trace while still running (`false`). -/
def VKScheduler.main_thread_loop : List SchedulerTick → List CommandBase × Bool
  | [] => ([], false)
  | t :: rest =>
    match t.grab with
    | .timeout =>
      if t.terminating then ([], true)
      else VKScheduler.main_thread_loop rest
    | .got c =>
      let r := VKScheduler.main_thread_loop rest
      (c :: r.1, r.2)

/-- The commands dequeued (successfully grabbed) in an observation trace, in
order. -/
def dequeuedCommands (tr : List SchedulerTick) : List CommandBase :=
  tr.filterMap (fun t =>
    match t.grab with
    | .got c => some c
    | .timeout => none)

/-- An observable step of `VKScheduler::~VKScheduler`. -/
inductive DtorAction where
  | setTerminatingFlag
  | joinSchedulerThread
  | releaseRingBuffer
  deriving Repr, DecidableEq

/-- `VKScheduler::~VKScheduler` (vk_scheduler.cpp lines 26-38) as its sequence
of observable steps: when the scheduler thread exists, exchange the terminating
flag to true and join the thread; only afterwards reset the command ring
buffer. -/
def VKScheduler.dtorTrace (thread_running : Bool) : List DtorAction :=
  (if thread_running then
    [DtorAction.setTerminatingFlag, DtorAction.joinSchedulerThread]
  else []) ++ [DtorAction.releaseRingBuffer]

/-- A backend buffer manager whose `acquire_object` always fails to produce a
reference (models an allocation failure). -/
def failingBufferManager : IVKBufferManager :=
  { get_tot_buffer_time_marker := fun _ _ => 0,
    get_tot_memory_block_time_marker := fun _ _ => 0,
    acquire_object := fun _ _ _ _ => none }

/-- A backend buffer manager that always resolves to one fixed backend
reference (id 3, all markers 1, pointers 100 and 200). -/
def constantBufferManager : IVKBufferManager :=
  { get_tot_buffer_time_marker := fun _ _ => 1,
    get_tot_memory_block_time_marker := fun _ _ => 1,
    acquire_object := fun _ _ _ _ =>
      some { payload := { backend_buffer_creation_time_marker := 1,
                          backend_mem_block_creation_time_marker := 1,
                          buffer_ptr := 100,
                          frontend_object_creation_time_marker := 1,
                          id := 3,
                          memory_block_ptr := 200 } } }

/-- A concrete BUFFER_DATA command: frontend buffer id 3, created at marker 1,
snapshot marker 2, payload size 128 bytes. -/
def sampleBufferDataCommand : CommandBase :=
  { type := CommandType.BUFFER_DATA,
    bufferData := some { buffer_reference :=
                           some { id := 3, object_creation_time := 1, time_marker := 2 },
                         size := 128 } }

/-- A command carrying a tag value outside the enumerated command-type set. -/
def unrecognizedTagCommand : CommandBase :=
  { type := 38, bufferData := none }

end OpenGL

open OpenGL

/-- Claim C1: `VKBufferPayload::operator==` returns true iff the `id` fields are
equal and all three time markers (frontend object creation, backend buffer
creation, backend memory block creation) are pairwise equal; in particular two
payloads with identical `id` but differing frontend creation markers compare
unequal. -/
theorem vkBufferPayload_opEq_iff_id_and_all_markers :
    (∀ a b : VKBufferPayload,
      VKBufferPayload.opEq a b = true ↔
        (a.id = b.id ∧
         a.frontend_object_creation_time_marker = b.frontend_object_creation_time_marker ∧
         a.backend_buffer_creation_time_marker = b.backend_buffer_creation_time_marker ∧
         a.backend_mem_block_creation_time_marker = b.backend_mem_block_creation_time_marker)) ∧
    (∀ a b : VKBufferPayload,
      a.id = b.id →
      a.frontend_object_creation_time_marker ≠ b.frontend_object_creation_time_marker →
      VKBufferPayload.opEq a b = false) := by
  constructor
  · intro a b
    simp [VKBufferPayload.opEq, and_assoc]
    tauto
  · intro a b hid hfm
    simp [VKBufferPayload.opEq, hid, hfm]

/-- Witness for C1: two concrete payloads with identical id (7) but differing
frontend creation markers (100 vs 200) compare unequal. -/
theorem vkBufferPayload_opEq_iff_id_and_all_markers_witness :
    VKBufferPayload.opEq ⟨1, 2, 10, 100, 7, 20⟩ ⟨1, 2, 11, 200, 7, 21⟩ = false :=
  vkBufferPayload_opEq_iff_id_and_all_markers.2
    ⟨1, 2, 10, 100, 7, 20⟩ ⟨1, 2, 11, 200, 7, 21⟩ rfl (by decide)

/-- Claim C9: payload equality is independent of the backend pointer fields:
replacing `buffer_ptr` and `memory_block_ptr` of either operand by arbitrary
values never changes the result of `operator==` or `operator!=`, and two
payloads agreeing on `id` and all three markers compare equal whatever their
pointer fields. -/
theorem vkBufferPayload_eq_ignores_backend_pointers :
    (∀ (a b : VKBufferPayload) (p1 q1 p2 q2 : Nat),
      VKBufferPayload.opEq
          { a with buffer_ptr := p1, memory_block_ptr := q1 }
          { b with buffer_ptr := p2, memory_block_ptr := q2 }
        = VKBufferPayload.opEq a b ∧
      VKBufferPayload.opNe
          { a with buffer_ptr := p1, memory_block_ptr := q1 }
          { b with buffer_ptr := p2, memory_block_ptr := q2 }
        = VKBufferPayload.opNe a b) ∧
    (∀ a b : VKBufferPayload,
      a.id = b.id →
      a.frontend_object_creation_time_marker = b.frontend_object_creation_time_marker →
      a.backend_buffer_creation_time_marker = b.backend_buffer_creation_time_marker →
      a.backend_mem_block_creation_time_marker = b.backend_mem_block_creation_time_marker →
      VKBufferPayload.opEq a b = true) := by
  constructor
  · intro a b p1 q1 p2 q2
    constructor <;> rfl
  · intro a b h1 h2 h3 h4
    simp [VKBufferPayload.opEq, h1, h2, h3, h4]

/-- Witness for C9: two concrete payloads agreeing on id and markers but with
different buffer and memory-block pointers compare equal. -/
theorem vkBufferPayload_eq_ignores_backend_pointers_witness :
    VKBufferPayload.opEq ⟨1, 2, 10, 3, 7, 20⟩ ⟨1, 2, 11, 3, 7, 21⟩ = true :=
  vkBufferPayload_eq_ignores_backend_pointers.2
    ⟨1, 2, 10, 3, 7, 20⟩ ⟨1, 2, 11, 3, 7, 21⟩ rfl rfl rfl rfl

/-- Claim C10: the hand-written `operator!=` is exactly the Boolean negation of
the hand-written `operator==` on every pair of payloads. -/
theorem vkBufferPayload_opNe_eq_not_opEq (a b : VKBufferPayload) :
    VKBufferPayload.opNe a b = !(VKBufferPayload.opEq a b) := by
  simp [VKBufferPayload.opEq, VKBufferPayload.opNe, bne]

/-- Helper: full evaluation of the buffer-data handler when the downcast
succeeds, the frontend reference is present, and the manager produces a
reference: the handler completes normally, appends exactly the described node,
and makes exactly the three manager calls. -/
theorem process_buffer_data_command_eq_of_acquire_some
    (order : ArgEvalOrder) (mgr : IVKBufferManager) (graph : List VKFrameGraphNode) (cmd : CommandBase)
    (bd : BufferDataCommand) (fe : GLBufferPayload) (ref : VKBufferReference)
    (h1 : cmd.bufferData = some bd)
    (h2 : bd.buffer_reference = some fe)
    (h3 : mgr.acquire_object fe.id fe.object_creation_time
            (mgr.get_tot_buffer_time_marker fe.id fe.object_creation_time)
            (mgr.get_tot_memory_block_time_marker fe.id fe.object_creation_time)
          = some ref) :
    VKScheduler.process_buffer_data_command order mgr graph cmd =
      { outcome := .ok,
        graph := graph ++
          [{ inputs := [{ reference := ref.clone, start_offset := 0, size := bd.size }],
             outputs := [{ reference := ref.clone, start_offset := 0, size := bd.size }],
             command := cmd }],
        calls := bufferDataManagerCalls order mgr fe } := by
  simp [VKScheduler.process_buffer_data_command, h1, h2, h3, VKFrameGraph.add_node]

/-- Helper: full evaluation of the buffer-data handler when the manager fails
to produce a reference: the handler hits the vkgl_assert trap after making the
three manager calls, and the frame graph is unchanged. -/
theorem process_buffer_data_command_eq_of_acquire_none
    (order : ArgEvalOrder) (mgr : IVKBufferManager) (graph : List VKFrameGraphNode) (cmd : CommandBase)
    (bd : BufferDataCommand) (fe : GLBufferPayload)
    (h1 : cmd.bufferData = some bd)
    (h2 : bd.buffer_reference = some fe)
    (h3 : mgr.acquire_object fe.id fe.object_creation_time
            (mgr.get_tot_buffer_time_marker fe.id fe.object_creation_time)
            (mgr.get_tot_memory_block_time_marker fe.id fe.object_creation_time)
          = none) :
    VKScheduler.process_buffer_data_command order mgr graph cmd =
      { outcome := .assertFail,
        graph := graph,
        calls := bufferDataManagerCalls order mgr fe } := by
  simp [VKScheduler.process_buffer_data_command, h1, h2, h3]

/-- Claim C2: every processed BUFFER_DATA command of size S makes the handler
add exactly one node to the frame graph, whose single input binding and single
output binding each start at offset 0, have length S, and are clones of the one
backend reference resolved by acquire_object; and processing two such commands
in a row appends exactly two nodes, in submission order. -/
theorem process_buffer_data_adds_one_node_per_command :
    (∀ (order : ArgEvalOrder) (mgr : IVKBufferManager) (graph : List VKFrameGraphNode)
       (cmd : CommandBase)
       (bd : BufferDataCommand) (fe : GLBufferPayload) (ref : VKBufferReference),
      cmd.bufferData = some bd →
      bd.buffer_reference = some fe →
      mgr.acquire_object fe.id fe.object_creation_time
          (mgr.get_tot_buffer_time_marker fe.id fe.object_creation_time)
          (mgr.get_tot_memory_block_time_marker fe.id fe.object_creation_time)
        = some ref →
      (VKScheduler.process_buffer_data_command order mgr graph cmd).outcome = .ok ∧
      (VKScheduler.process_buffer_data_command order mgr graph cmd).graph =
        graph ++
          [{ inputs := [{ reference := ref.clone, start_offset := 0, size := bd.size }],
             outputs := [{ reference := ref.clone, start_offset := 0, size := bd.size }],
             command := cmd }]) ∧
    (∀ (order : ArgEvalOrder) (mgr : IVKBufferManager) (graph : List VKFrameGraphNode)
       (cmd1 cmd2 : CommandBase) (bd1 bd2 : BufferDataCommand)
       (fe1 fe2 : GLBufferPayload) (ref1 ref2 : VKBufferReference),
      cmd1.bufferData = some bd1 →
      bd1.buffer_reference = some fe1 →
      mgr.acquire_object fe1.id fe1.object_creation_time
          (mgr.get_tot_buffer_time_marker fe1.id fe1.object_creation_time)
          (mgr.get_tot_memory_block_time_marker fe1.id fe1.object_creation_time)
        = some ref1 →
      cmd2.bufferData = some bd2 →
      bd2.buffer_reference = some fe2 →
      mgr.acquire_object fe2.id fe2.object_creation_time
          (mgr.get_tot_buffer_time_marker fe2.id fe2.object_creation_time)
          (mgr.get_tot_memory_block_time_marker fe2.id fe2.object_creation_time)
        = some ref2 →
      (VKScheduler.process_buffer_data_command order mgr
          (VKScheduler.process_buffer_data_command order mgr graph cmd1).graph cmd2).graph =
        graph ++
          [{ inputs := [{ reference := ref1.clone, start_offset := 0, size := bd1.size }],
             outputs := [{ reference := ref1.clone, start_offset := 0, size := bd1.size }],
             command := cmd1 },
           { inputs := [{ reference := ref2.clone, start_offset := 0, size := bd2.size }],
             outputs := [{ reference := ref2.clone, start_offset := 0, size := bd2.size }],
             command := cmd2 }]) := by
  constructor
  · intro order mgr graph cmd bd fe ref h1 h2 h3
    rw [process_buffer_data_command_eq_of_acquire_some order mgr graph cmd bd fe ref h1 h2 h3]
    exact ⟨rfl, rfl⟩
  · intro order mgr graph cmd1 cmd2 bd1 bd2 fe1 fe2 ref1 ref2 h1 h2 h3 h4 h5 h6
    rw [process_buffer_data_command_eq_of_acquire_some order mgr graph cmd1 bd1 fe1 ref1 h1 h2 h3]
    rw [process_buffer_data_command_eq_of_acquire_some order mgr _ cmd2 bd2 fe2 ref2 h4 h5 h6]
    simp

/-- Witness for C2: processing the concrete 128-byte BUFFER_DATA command for
frontend buffer id 3 twice in a row against the constant manager appends the
two expected nodes, in submission order. -/
theorem process_buffer_data_adds_one_node_per_command_witness :
    (VKScheduler.process_buffer_data_command ArgEvalOrder.leftToRight constantBufferManager
        (VKScheduler.process_buffer_data_command ArgEvalOrder.leftToRight constantBufferManager []
          sampleBufferDataCommand).graph
        sampleBufferDataCommand).graph =
      [] ++
        [{ inputs := [{ reference := VKBufferReference.clone
                          { payload := { backend_buffer_creation_time_marker := 1,
                                         backend_mem_block_creation_time_marker := 1,
                                         buffer_ptr := 100,
                                         frontend_object_creation_time_marker := 1,
                                         id := 3,
                                         memory_block_ptr := 200 } },
                        start_offset := 0, size := 128 }],
           outputs := [{ reference := VKBufferReference.clone
                           { payload := { backend_buffer_creation_time_marker := 1,
                                          backend_mem_block_creation_time_marker := 1,
                                          buffer_ptr := 100,
                                          frontend_object_creation_time_marker := 1,
                                          id := 3,
                                          memory_block_ptr := 200 } },
                         start_offset := 0, size := 128 }],
           command := sampleBufferDataCommand },
         { inputs := [{ reference := VKBufferReference.clone
                          { payload := { backend_buffer_creation_time_marker := 1,
                                         backend_mem_block_creation_time_marker := 1,
                                         buffer_ptr := 100,
                                         frontend_object_creation_time_marker := 1,
                                         id := 3,
                                         memory_block_ptr := 200 } },
                        start_offset := 0, size := 128 }],
           outputs := [{ reference := VKBufferReference.clone
                           { payload := { backend_buffer_creation_time_marker := 1,
                                          backend_mem_block_creation_time_marker := 1,
                                          buffer_ptr := 100,
                                          frontend_object_creation_time_marker := 1,
                                          id := 3,
                                          memory_block_ptr := 200 } },
                         start_offset := 0, size := 128 }],
           command := sampleBufferDataCommand }] :=
  process_buffer_data_adds_one_node_per_command.2 ArgEvalOrder.leftToRight constantBufferManager []
    sampleBufferDataCommand sampleBufferDataCommand _ _ _ _ _ _
    rfl rfl rfl rfl rfl rfl

/-- Counterexample to claim C7 as stated: the buffer-getter-first call
sequence is not a property of the program. The two getter calls are sibling
arguments of the acquire_object call, which C++ leaves indeterminately
sequenced; under the right-to-left argument evaluation order, processing the
concrete sample command against the constant manager emits the memory-block
getter first, so the trace differs from the claimed sequence. -/
theorem process_buffer_data_getter_order_compiler_dependent_cex :
    (VKScheduler.process_buffer_data_command ArgEvalOrder.rightToLeft
        constantBufferManager [] sampleBufferDataCommand).calls =
      [ManagerCall.getTotMemoryBlockTimeMarker 3 1,
       ManagerCall.getTotBufferTimeMarker 3 1,
       ManagerCall.acquireObject 3 1 1 1] ∧
    (VKScheduler.process_buffer_data_command ArgEvalOrder.rightToLeft
        constantBufferManager [] sampleBufferDataCommand).calls ≠
      [ManagerCall.getTotBufferTimeMarker 3 1,
       ManagerCall.getTotMemoryBlockTimeMarker 3 1,
       ManagerCall.acquireObject 3 1 1 1] := by
  constructor
  · rfl
  · decide

/-- Claim C7 as amended: for every processed BUFFER_DATA command, under every
argument evaluation order the compiler may choose, the scheduler calls both
get_tot_buffer_time_marker and get_tot_memory_block_time_marker — in the
compiler-chosen relative order — each with the id and frontend creation marker
taken from the command's buffer reference, before calling acquire_object with
that same id and marker and the two getter results as the last-known backend
markers; the trace is exactly the two getters followed by acquire_object. -/
theorem process_buffer_data_manager_calls_characterized
    (order : ArgEvalOrder) (mgr : IVKBufferManager) (graph : List VKFrameGraphNode)
    (cmd : CommandBase) (bd : BufferDataCommand) (fe : GLBufferPayload)
    (h1 : cmd.bufferData = some bd)
    (h2 : bd.buffer_reference = some fe) :
    (VKScheduler.process_buffer_data_command order mgr graph cmd).calls =
      bufferDataManagerCalls order mgr fe ∧
    ((VKScheduler.process_buffer_data_command order mgr graph cmd).calls =
        [ManagerCall.getTotBufferTimeMarker fe.id fe.object_creation_time,
         ManagerCall.getTotMemoryBlockTimeMarker fe.id fe.object_creation_time,
         ManagerCall.acquireObject fe.id fe.object_creation_time
           (mgr.get_tot_buffer_time_marker fe.id fe.object_creation_time)
           (mgr.get_tot_memory_block_time_marker fe.id fe.object_creation_time)] ∨
     (VKScheduler.process_buffer_data_command order mgr graph cmd).calls =
        [ManagerCall.getTotMemoryBlockTimeMarker fe.id fe.object_creation_time,
         ManagerCall.getTotBufferTimeMarker fe.id fe.object_creation_time,
         ManagerCall.acquireObject fe.id fe.object_creation_time
           (mgr.get_tot_buffer_time_marker fe.id fe.object_creation_time)
           (mgr.get_tot_memory_block_time_marker fe.id fe.object_creation_time)]) := by
  have hcalls : (VKScheduler.process_buffer_data_command order mgr graph cmd).calls =
      bufferDataManagerCalls order mgr fe := by
    cases h3 : mgr.acquire_object fe.id fe.object_creation_time
        (mgr.get_tot_buffer_time_marker fe.id fe.object_creation_time)
        (mgr.get_tot_memory_block_time_marker fe.id fe.object_creation_time) with
    | none =>
      rw [process_buffer_data_command_eq_of_acquire_none order mgr graph cmd bd fe h1 h2 h3]
    | some ref =>
      rw [process_buffer_data_command_eq_of_acquire_some order mgr graph cmd bd fe ref h1 h2 h3]
  refine ⟨hcalls, ?_⟩
  rw [hcalls]
  cases order with
  | leftToRight => exact Or.inl rfl
  | rightToLeft => exact Or.inr rfl

/-- Witness for the amended C7: the concrete trace for the sample command
against the constant manager under left-to-right evaluation. -/
theorem process_buffer_data_manager_calls_characterized_witness :
    (VKScheduler.process_buffer_data_command ArgEvalOrder.leftToRight
        constantBufferManager [] sampleBufferDataCommand).calls =
      bufferDataManagerCalls ArgEvalOrder.leftToRight constantBufferManager
        { id := 3, object_creation_time := 1, time_marker := 2 } :=
  (process_buffer_data_manager_calls_characterized ArgEvalOrder.leftToRight
    constantBufferManager [] sampleBufferDataCommand _ _ rfl rfl).1

/-- Counterexample to claim C3: at the concrete BUFFER_DATA command for buffer
id 3 processed against a manager whose acquire_object fails, the handler ends
in the vkgl_assert trap — the fatal outcome, not a recoverable typed failure
distinct from it — so the scheduler loop does not get to continue past a
surviving handler return; the frame graph is left untouched. -/
theorem process_buffer_data_acquire_failure_asserts_cex :
    (VKScheduler.process_buffer_data_command ArgEvalOrder.leftToRight failingBufferManager []
        sampleBufferDataCommand).outcome = SchedulerOutcome.assertFail ∧
    SchedulerOutcome.assertFail ≠ SchedulerOutcome.ok ∧
    SchedulerOutcome.assertFail ≠ SchedulerOutcome.notImplemented ∧
    (VKScheduler.process_buffer_data_command ArgEvalOrder.leftToRight failingBufferManager []
        sampleBufferDataCommand).graph = [] := by
  refine ⟨rfl, ?_, ?_, rfl⟩ <;> decide

/-- Claim C3 as amended: when acquire_object fails to produce a reference, the
handler hits the vkgl_assert trap — a fatal outcome, the same signal as any
other assertion failure, not a recoverable typed error — right after the three
manager calls, and no frame-graph node is added. -/
theorem process_buffer_data_acquire_failure_is_fatal_assert
    (order : ArgEvalOrder) (mgr : IVKBufferManager) (graph : List VKFrameGraphNode) (cmd : CommandBase)
    (bd : BufferDataCommand) (fe : GLBufferPayload)
    (h1 : cmd.bufferData = some bd)
    (h2 : bd.buffer_reference = some fe)
    (h3 : mgr.acquire_object fe.id fe.object_creation_time
            (mgr.get_tot_buffer_time_marker fe.id fe.object_creation_time)
            (mgr.get_tot_memory_block_time_marker fe.id fe.object_creation_time)
          = none) :
    (VKScheduler.process_buffer_data_command order mgr graph cmd).outcome =
      SchedulerOutcome.assertFail ∧
    (VKScheduler.process_buffer_data_command order mgr graph cmd).graph = graph := by
  rw [process_buffer_data_command_eq_of_acquire_none order mgr graph cmd bd fe h1 h2 h3]
  exact ⟨rfl, rfl⟩

/-- Witness for the amended C3: the failing manager and the sample command
instantiate the hypotheses. -/
theorem process_buffer_data_acquire_failure_is_fatal_assert_witness :
    (VKScheduler.process_buffer_data_command ArgEvalOrder.leftToRight failingBufferManager []
        sampleBufferDataCommand).outcome = SchedulerOutcome.assertFail ∧
    (VKScheduler.process_buffer_data_command ArgEvalOrder.leftToRight failingBufferManager []
        sampleBufferDataCommand).graph = [] :=
  process_buffer_data_acquire_failure_is_fatal_assert ArgEvalOrder.leftToRight failingBufferManager []
    sampleBufferDataCommand _ _ rfl rfl rfl

/-- Claim C8: every command whose tag is in the enumerated set but is not
BUFFER_DATA is processed by a stub handler that ends in the dedicated
vkgl_not_implemented "not yet supported" trap — an outcome distinct from a true
assertion failure — and neither succeeds silently nor adds a frame-graph
node. -/
theorem stub_handlers_fail_with_not_implemented
    (order : ArgEvalOrder) (mgr : IVKBufferManager) (graph : List VKFrameGraphNode) (cmd : CommandBase)
    (hmem : cmd.type ∈ enumeratedCommandTypes)
    (hne : cmd.type ≠ CommandType.BUFFER_DATA) :
    VKScheduler.process_command order mgr graph cmd = notImplementedResult graph ∧
    (VKScheduler.process_command order mgr graph cmd).outcome = SchedulerOutcome.notImplemented ∧
    (VKScheduler.process_command order mgr graph cmd).graph = graph ∧
    SchedulerOutcome.notImplemented ≠ SchedulerOutcome.assertFail ∧
    (VKScheduler.process_command order mgr graph cmd).outcome ≠ SchedulerOutcome.ok := by
  simp only [enumeratedCommandTypes, CommandType.BUFFER_DATA, CommandType.BUFFER_SUB_DATA, CommandType.CLEAR, CommandType.COMPILE_SHADER, CommandType.COMPRESSED_TEX_IMAGE_1D, CommandType.COMPRESSED_TEX_IMAGE_2D, CommandType.COMPRESSED_TEX_IMAGE_3D, CommandType.COMPRESSED_TEX_SUB_IMAGE_1D, CommandType.COMPRESSED_TEX_SUB_IMAGE_2D, CommandType.COMPRESSED_TEX_SUB_IMAGE_3D, CommandType.COPY_BUFFER_SUB_DATA, CommandType.COPY_TEX_IMAGE_1D, CommandType.COPY_TEX_IMAGE_2D, CommandType.COPY_TEX_SUB_IMAGE_1D, CommandType.COPY_TEX_SUB_IMAGE_2D, CommandType.COPY_TEX_SUB_IMAGE_3D, CommandType.DRAW_ARRAYS, CommandType.DRAW_ELEMENTS, CommandType.DRAW_RANGE_ELEMENTS, CommandType.FINISH, CommandType.FLUSH, CommandType.FLUSH_MAPPED_BUFFER_RANGE, CommandType.GET_BUFFER_SUB_DATA, CommandType.GET_COMPRESSED_TEX_IMAGE, CommandType.GET_TEXTURE_IMAGE, CommandType.LINK_PROGRAM, CommandType.MAP_BUFFER, CommandType.MULTI_DRAW_ARRAYS, CommandType.MULTI_DRAW_ELEMENTS, CommandType.READ_PIXELS, CommandType.TEX_IMAGE_1D, CommandType.TEX_IMAGE_2D, CommandType.TEX_IMAGE_3D, CommandType.TEX_SUB_IMAGE_1D, CommandType.TEX_SUB_IMAGE_2D, CommandType.TEX_SUB_IMAGE_3D, CommandType.UNMAP_BUFFER, CommandType.VALIDATE_PROGRAM,
    List.mem_cons, List.not_mem_nil, or_false] at hmem
  simp only [CommandType.BUFFER_DATA] at hne
  rcases hmem with h|h|h|h|h|h|h|h|h|h|h|h|h|h|h|h|h|h|h|h|h|h|h|h|h|h|h|h|h|h|h|h|h|h|h|h|h|h
  · exact absurd h hne
  all_goals
    simp [VKScheduler.process_command, h, hne,
      CommandType.BUFFER_DATA, CommandType.BUFFER_SUB_DATA, CommandType.CLEAR, CommandType.COMPILE_SHADER, CommandType.COMPRESSED_TEX_IMAGE_1D, CommandType.COMPRESSED_TEX_IMAGE_2D, CommandType.COMPRESSED_TEX_IMAGE_3D, CommandType.COMPRESSED_TEX_SUB_IMAGE_1D, CommandType.COMPRESSED_TEX_SUB_IMAGE_2D, CommandType.COMPRESSED_TEX_SUB_IMAGE_3D, CommandType.COPY_BUFFER_SUB_DATA, CommandType.COPY_TEX_IMAGE_1D, CommandType.COPY_TEX_IMAGE_2D, CommandType.COPY_TEX_SUB_IMAGE_1D, CommandType.COPY_TEX_SUB_IMAGE_2D, CommandType.COPY_TEX_SUB_IMAGE_3D, CommandType.DRAW_ARRAYS, CommandType.DRAW_ELEMENTS, CommandType.DRAW_RANGE_ELEMENTS, CommandType.FINISH, CommandType.FLUSH, CommandType.FLUSH_MAPPED_BUFFER_RANGE, CommandType.GET_BUFFER_SUB_DATA, CommandType.GET_COMPRESSED_TEX_IMAGE, CommandType.GET_TEXTURE_IMAGE, CommandType.LINK_PROGRAM, CommandType.MAP_BUFFER, CommandType.MULTI_DRAW_ARRAYS, CommandType.MULTI_DRAW_ELEMENTS, CommandType.READ_PIXELS, CommandType.TEX_IMAGE_1D, CommandType.TEX_IMAGE_2D, CommandType.TEX_IMAGE_3D, CommandType.TEX_SUB_IMAGE_1D, CommandType.TEX_SUB_IMAGE_2D, CommandType.TEX_SUB_IMAGE_3D, CommandType.UNMAP_BUFFER, CommandType.VALIDATE_PROGRAM,
      VKScheduler.process_buffer_sub_data_command, VKScheduler.process_clear_command, VKScheduler.process_compile_shader_command, VKScheduler.process_compressed_tex_image_1D_command, VKScheduler.process_compressed_tex_image_2D_command, VKScheduler.process_compressed_tex_image_3D_command, VKScheduler.process_compressed_tex_sub_image_1D_command, VKScheduler.process_compressed_tex_sub_image_2D_command, VKScheduler.process_compressed_tex_sub_image_3D_command, VKScheduler.process_copy_buffer_sub_data_command, VKScheduler.process_copy_tex_image_1D_command, VKScheduler.process_copy_tex_image_2D_command, VKScheduler.process_copy_tex_sub_image_1D_command, VKScheduler.process_copy_tex_sub_image_2D_command, VKScheduler.process_copy_tex_sub_image_3D_command, VKScheduler.process_draw_arrays_command, VKScheduler.process_draw_elements_command, VKScheduler.process_draw_range_elements_command, VKScheduler.process_finish_command, VKScheduler.process_flush_command, VKScheduler.process_flush_mapped_buffer_range_command, VKScheduler.process_get_buffer_sub_data_command, VKScheduler.process_get_compressed_tex_image_command, VKScheduler.process_get_texture_image_command, VKScheduler.process_link_program_command, VKScheduler.process_map_buffer_command, VKScheduler.process_multi_draw_arrays_command, VKScheduler.process_multi_draw_elements_command, VKScheduler.process_read_pixels_command, VKScheduler.process_tex_image_1D_command, VKScheduler.process_tex_image_2D_command, VKScheduler.process_tex_image_3D_command, VKScheduler.process_tex_sub_image_1D_command, VKScheduler.process_tex_sub_image_2D_command, VKScheduler.process_tex_sub_image_3D_command, VKScheduler.process_unmap_buffer_command, VKScheduler.process_validate_program_command,
      notImplementedResult]

/-- Witness for C8: the CLEAR command (an enumerated, unimplemented tag) ends
in the vkgl_not_implemented outcome with the frame graph unchanged. -/
theorem stub_handlers_fail_with_not_implemented_witness :
    VKScheduler.process_command ArgEvalOrder.leftToRight failingBufferManager []
        { type := CommandType.CLEAR, bufferData := none } = notImplementedResult [] ∧
    (VKScheduler.process_command ArgEvalOrder.leftToRight failingBufferManager []
        { type := CommandType.CLEAR, bufferData := none }).outcome
      = SchedulerOutcome.notImplemented ∧
    (VKScheduler.process_command ArgEvalOrder.leftToRight failingBufferManager []
        { type := CommandType.CLEAR, bufferData := none }).graph = [] ∧
    SchedulerOutcome.notImplemented ≠ SchedulerOutcome.assertFail ∧
    (VKScheduler.process_command ArgEvalOrder.leftToRight failingBufferManager []
        { type := CommandType.CLEAR, bufferData := none }).outcome
      ≠ SchedulerOutcome.ok :=
  stub_handlers_fail_with_not_implemented ArgEvalOrder.leftToRight failingBufferManager []
    { type := CommandType.CLEAR, bufferData := none } (by decide) (by decide)

/-- Counterexample to claim C4 as stated: the tag set is not covered
exhaustively at compile time — process_command is total over arbitrary tag
values through a runtime default branch. The concrete tag value 38 lies outside
the enumerated set, yet a command carrying it is accepted at runtime and falls
into the default branch, which executes vkgl_assert_fail and leaves the graph
untouched. -/
theorem process_command_runtime_default_branch_cex :
    unrecognizedTagCommand.type ∉ enumeratedCommandTypes ∧
    VKScheduler.process_command ArgEvalOrder.leftToRight failingBufferManager [] unrecognizedTagCommand =
      { outcome := SchedulerOutcome.assertFail, graph := [], calls := [] } := by
  constructor
  · decide
  · rfl

/-- Claim C4 as amended: process_command dispatches every command whose tag is
one of the 38 enumerated command types to the handler matching that tag, and a
command carrying any unrecognized tag falls into the runtime default branch,
which is a fatal assertion failure (vkgl_assert_fail), not a recoverable
condition; exhaustiveness over tags is enforced by that runtime default branch,
not at compile time. -/
theorem process_command_dispatches_by_tag
    (order : ArgEvalOrder) (mgr : IVKBufferManager) (graph : List VKFrameGraphNode) (cmd : CommandBase) :
      (cmd.type = CommandType.BUFFER_DATA →
        VKScheduler.process_command order mgr graph cmd =
          VKScheduler.process_buffer_data_command order mgr graph cmd) ∧
      (cmd.type = CommandType.BUFFER_SUB_DATA →
        VKScheduler.process_command order mgr graph cmd =
          VKScheduler.process_buffer_sub_data_command graph) ∧
      (cmd.type = CommandType.CLEAR →
        VKScheduler.process_command order mgr graph cmd =
          VKScheduler.process_clear_command graph) ∧
      (cmd.type = CommandType.COMPILE_SHADER →
        VKScheduler.process_command order mgr graph cmd =
          VKScheduler.process_compile_shader_command graph) ∧
      (cmd.type = CommandType.COMPRESSED_TEX_IMAGE_1D →
        VKScheduler.process_command order mgr graph cmd =
          VKScheduler.process_compressed_tex_image_1D_command graph) ∧
      (cmd.type = CommandType.COMPRESSED_TEX_IMAGE_2D →
        VKScheduler.process_command order mgr graph cmd =
          VKScheduler.process_compressed_tex_image_2D_command graph) ∧
      (cmd.type = CommandType.COMPRESSED_TEX_IMAGE_3D →
        VKScheduler.process_command order mgr graph cmd =
          VKScheduler.process_compressed_tex_image_3D_command graph) ∧
      (cmd.type = CommandType.COMPRESSED_TEX_SUB_IMAGE_1D →
        VKScheduler.process_command order mgr graph cmd =
          VKScheduler.process_compressed_tex_sub_image_1D_command graph) ∧
      (cmd.type = CommandType.COMPRESSED_TEX_SUB_IMAGE_2D →
        VKScheduler.process_command order mgr graph cmd =
          VKScheduler.process_compressed_tex_sub_image_2D_command graph) ∧
      (cmd.type = CommandType.COMPRESSED_TEX_SUB_IMAGE_3D →
        VKScheduler.process_command order mgr graph cmd =
          VKScheduler.process_compressed_tex_sub_image_3D_command graph) ∧
      (cmd.type = CommandType.COPY_BUFFER_SUB_DATA →
        VKScheduler.process_command order mgr graph cmd =
          VKScheduler.process_copy_buffer_sub_data_command graph) ∧
      (cmd.type = CommandType.COPY_TEX_IMAGE_1D →
        VKScheduler.process_command order mgr graph cmd =
          VKScheduler.process_copy_tex_image_1D_command graph) ∧
      (cmd.type = CommandType.COPY_TEX_IMAGE_2D →
        VKScheduler.process_command order mgr graph cmd =
          VKScheduler.process_copy_tex_image_2D_command graph) ∧
      (cmd.type = CommandType.COPY_TEX_SUB_IMAGE_1D →
        VKScheduler.process_command order mgr graph cmd =
          VKScheduler.process_copy_tex_sub_image_1D_command graph) ∧
      (cmd.type = CommandType.COPY_TEX_SUB_IMAGE_2D →
        VKScheduler.process_command order mgr graph cmd =
          VKScheduler.process_copy_tex_sub_image_2D_command graph) ∧
      (cmd.type = CommandType.COPY_TEX_SUB_IMAGE_3D →
        VKScheduler.process_command order mgr graph cmd =
          VKScheduler.process_copy_tex_sub_image_3D_command graph) ∧
      (cmd.type = CommandType.DRAW_ARRAYS →
        VKScheduler.process_command order mgr graph cmd =
          VKScheduler.process_draw_arrays_command graph) ∧
      (cmd.type = CommandType.DRAW_ELEMENTS →
        VKScheduler.process_command order mgr graph cmd =
          VKScheduler.process_draw_elements_command graph) ∧
      (cmd.type = CommandType.DRAW_RANGE_ELEMENTS →
        VKScheduler.process_command order mgr graph cmd =
          VKScheduler.process_draw_range_elements_command graph) ∧
      (cmd.type = CommandType.FINISH →
        VKScheduler.process_command order mgr graph cmd =
          VKScheduler.process_finish_command graph) ∧
      (cmd.type = CommandType.FLUSH →
        VKScheduler.process_command order mgr graph cmd =
          VKScheduler.process_flush_command graph) ∧
      (cmd.type = CommandType.FLUSH_MAPPED_BUFFER_RANGE →
        VKScheduler.process_command order mgr graph cmd =
          VKScheduler.process_flush_mapped_buffer_range_command graph) ∧
      (cmd.type = CommandType.GET_BUFFER_SUB_DATA →
        VKScheduler.process_command order mgr graph cmd =
          VKScheduler.process_get_buffer_sub_data_command graph) ∧
      (cmd.type = CommandType.GET_COMPRESSED_TEX_IMAGE →
        VKScheduler.process_command order mgr graph cmd =
          VKScheduler.process_get_compressed_tex_image_command graph) ∧
      (cmd.type = CommandType.GET_TEXTURE_IMAGE →
        VKScheduler.process_command order mgr graph cmd =
          VKScheduler.process_get_texture_image_command graph) ∧
      (cmd.type = CommandType.LINK_PROGRAM →
        VKScheduler.process_command order mgr graph cmd =
          VKScheduler.process_link_program_command graph) ∧
      (cmd.type = CommandType.MAP_BUFFER →
        VKScheduler.process_command order mgr graph cmd =
          VKScheduler.process_map_buffer_command graph) ∧
      (cmd.type = CommandType.MULTI_DRAW_ARRAYS →
        VKScheduler.process_command order mgr graph cmd =
          VKScheduler.process_multi_draw_arrays_command graph) ∧
      (cmd.type = CommandType.MULTI_DRAW_ELEMENTS →
        VKScheduler.process_command order mgr graph cmd =
          VKScheduler.process_multi_draw_elements_command graph) ∧
      (cmd.type = CommandType.READ_PIXELS →
        VKScheduler.process_command order mgr graph cmd =
          VKScheduler.process_read_pixels_command graph) ∧
      (cmd.type = CommandType.TEX_IMAGE_1D →
        VKScheduler.process_command order mgr graph cmd =
          VKScheduler.process_tex_image_1D_command graph) ∧
      (cmd.type = CommandType.TEX_IMAGE_2D →
        VKScheduler.process_command order mgr graph cmd =
          VKScheduler.process_tex_image_2D_command graph) ∧
      (cmd.type = CommandType.TEX_IMAGE_3D →
        VKScheduler.process_command order mgr graph cmd =
          VKScheduler.process_tex_image_3D_command graph) ∧
      (cmd.type = CommandType.TEX_SUB_IMAGE_1D →
        VKScheduler.process_command order mgr graph cmd =
          VKScheduler.process_tex_sub_image_1D_command graph) ∧
      (cmd.type = CommandType.TEX_SUB_IMAGE_2D →
        VKScheduler.process_command order mgr graph cmd =
          VKScheduler.process_tex_sub_image_2D_command graph) ∧
      (cmd.type = CommandType.TEX_SUB_IMAGE_3D →
        VKScheduler.process_command order mgr graph cmd =
          VKScheduler.process_tex_sub_image_3D_command graph) ∧
      (cmd.type = CommandType.UNMAP_BUFFER →
        VKScheduler.process_command order mgr graph cmd =
          VKScheduler.process_unmap_buffer_command graph) ∧
      (cmd.type = CommandType.VALIDATE_PROGRAM →
        VKScheduler.process_command order mgr graph cmd =
          VKScheduler.process_validate_program_command graph) ∧
      (cmd.type ∉ enumeratedCommandTypes →
        VKScheduler.process_command order mgr graph cmd =
          { outcome := SchedulerOutcome.assertFail, graph := graph, calls := [] }) := by
  refine ⟨?_, ?_, ?_, ?_, ?_, ?_, ?_, ?_, ?_, ?_, ?_, ?_, ?_, ?_, ?_, ?_, ?_, ?_, ?_, ?_, ?_, ?_, ?_, ?_, ?_, ?_, ?_, ?_, ?_, ?_, ?_, ?_, ?_, ?_, ?_, ?_, ?_, ?_, ?_⟩
  all_goals intro h
  case refine_39 =>
    simp [enumeratedCommandTypes, CommandType.BUFFER_DATA, CommandType.BUFFER_SUB_DATA, CommandType.CLEAR, CommandType.COMPILE_SHADER, CommandType.COMPRESSED_TEX_IMAGE_1D, CommandType.COMPRESSED_TEX_IMAGE_2D, CommandType.COMPRESSED_TEX_IMAGE_3D, CommandType.COMPRESSED_TEX_SUB_IMAGE_1D, CommandType.COMPRESSED_TEX_SUB_IMAGE_2D, CommandType.COMPRESSED_TEX_SUB_IMAGE_3D, CommandType.COPY_BUFFER_SUB_DATA, CommandType.COPY_TEX_IMAGE_1D, CommandType.COPY_TEX_IMAGE_2D, CommandType.COPY_TEX_SUB_IMAGE_1D, CommandType.COPY_TEX_SUB_IMAGE_2D, CommandType.COPY_TEX_SUB_IMAGE_3D, CommandType.DRAW_ARRAYS, CommandType.DRAW_ELEMENTS, CommandType.DRAW_RANGE_ELEMENTS, CommandType.FINISH, CommandType.FLUSH, CommandType.FLUSH_MAPPED_BUFFER_RANGE, CommandType.GET_BUFFER_SUB_DATA, CommandType.GET_COMPRESSED_TEX_IMAGE, CommandType.GET_TEXTURE_IMAGE, CommandType.LINK_PROGRAM, CommandType.MAP_BUFFER, CommandType.MULTI_DRAW_ARRAYS, CommandType.MULTI_DRAW_ELEMENTS, CommandType.READ_PIXELS, CommandType.TEX_IMAGE_1D, CommandType.TEX_IMAGE_2D, CommandType.TEX_IMAGE_3D, CommandType.TEX_SUB_IMAGE_1D, CommandType.TEX_SUB_IMAGE_2D, CommandType.TEX_SUB_IMAGE_3D, CommandType.UNMAP_BUFFER, CommandType.VALIDATE_PROGRAM, not_or] at h
    simp [VKScheduler.process_command, CommandType.BUFFER_DATA, CommandType.BUFFER_SUB_DATA, CommandType.CLEAR, CommandType.COMPILE_SHADER, CommandType.COMPRESSED_TEX_IMAGE_1D, CommandType.COMPRESSED_TEX_IMAGE_2D, CommandType.COMPRESSED_TEX_IMAGE_3D, CommandType.COMPRESSED_TEX_SUB_IMAGE_1D, CommandType.COMPRESSED_TEX_SUB_IMAGE_2D, CommandType.COMPRESSED_TEX_SUB_IMAGE_3D, CommandType.COPY_BUFFER_SUB_DATA, CommandType.COPY_TEX_IMAGE_1D, CommandType.COPY_TEX_IMAGE_2D, CommandType.COPY_TEX_SUB_IMAGE_1D, CommandType.COPY_TEX_SUB_IMAGE_2D, CommandType.COPY_TEX_SUB_IMAGE_3D, CommandType.DRAW_ARRAYS, CommandType.DRAW_ELEMENTS, CommandType.DRAW_RANGE_ELEMENTS, CommandType.FINISH, CommandType.FLUSH, CommandType.FLUSH_MAPPED_BUFFER_RANGE, CommandType.GET_BUFFER_SUB_DATA, CommandType.GET_COMPRESSED_TEX_IMAGE, CommandType.GET_TEXTURE_IMAGE, CommandType.LINK_PROGRAM, CommandType.MAP_BUFFER, CommandType.MULTI_DRAW_ARRAYS, CommandType.MULTI_DRAW_ELEMENTS, CommandType.READ_PIXELS, CommandType.TEX_IMAGE_1D, CommandType.TEX_IMAGE_2D, CommandType.TEX_IMAGE_3D, CommandType.TEX_SUB_IMAGE_1D, CommandType.TEX_SUB_IMAGE_2D, CommandType.TEX_SUB_IMAGE_3D, CommandType.UNMAP_BUFFER, CommandType.VALIDATE_PROGRAM, h]
  all_goals
    simp [VKScheduler.process_command, h, CommandType.BUFFER_DATA, CommandType.BUFFER_SUB_DATA, CommandType.CLEAR, CommandType.COMPILE_SHADER, CommandType.COMPRESSED_TEX_IMAGE_1D, CommandType.COMPRESSED_TEX_IMAGE_2D, CommandType.COMPRESSED_TEX_IMAGE_3D, CommandType.COMPRESSED_TEX_SUB_IMAGE_1D, CommandType.COMPRESSED_TEX_SUB_IMAGE_2D, CommandType.COMPRESSED_TEX_SUB_IMAGE_3D, CommandType.COPY_BUFFER_SUB_DATA, CommandType.COPY_TEX_IMAGE_1D, CommandType.COPY_TEX_IMAGE_2D, CommandType.COPY_TEX_SUB_IMAGE_1D, CommandType.COPY_TEX_SUB_IMAGE_2D, CommandType.COPY_TEX_SUB_IMAGE_3D, CommandType.DRAW_ARRAYS, CommandType.DRAW_ELEMENTS, CommandType.DRAW_RANGE_ELEMENTS, CommandType.FINISH, CommandType.FLUSH, CommandType.FLUSH_MAPPED_BUFFER_RANGE, CommandType.GET_BUFFER_SUB_DATA, CommandType.GET_COMPRESSED_TEX_IMAGE, CommandType.GET_TEXTURE_IMAGE, CommandType.LINK_PROGRAM, CommandType.MAP_BUFFER, CommandType.MULTI_DRAW_ARRAYS, CommandType.MULTI_DRAW_ELEMENTS, CommandType.READ_PIXELS, CommandType.TEX_IMAGE_1D, CommandType.TEX_IMAGE_2D, CommandType.TEX_IMAGE_3D, CommandType.TEX_SUB_IMAGE_1D, CommandType.TEX_SUB_IMAGE_2D, CommandType.TEX_SUB_IMAGE_3D, CommandType.UNMAP_BUFFER, CommandType.VALIDATE_PROGRAM]

/-- Witness for the amended C4: a CLEAR-tagged command is dispatched to the
clear handler, and the out-of-range tag 38 lands in the fatal default branch. -/
theorem process_command_dispatches_by_tag_witness :
    (VKScheduler.process_command ArgEvalOrder.leftToRight failingBufferManager []
        { type := CommandType.CLEAR, bufferData := none } =
      VKScheduler.process_clear_command []) ∧
    (VKScheduler.process_command ArgEvalOrder.leftToRight failingBufferManager [] unrecognizedTagCommand =
      { outcome := SchedulerOutcome.assertFail, graph := [], calls := [] }) :=
  ⟨(process_command_dispatches_by_tag ArgEvalOrder.leftToRight failingBufferManager []
      { type := CommandType.CLEAR, bufferData := none }).2.2.1 rfl,
   (process_command_dispatches_by_tag ArgEvalOrder.leftToRight failingBufferManager []
      unrecognizedTagCommand).2.2.2.2.2.2.2.2.2.2.2.2.2.2.2.2.2.2.2.2.2.2.2.2.2.2.2.2.2.2.2.2.2.2.2.2.2.2 (by decide)⟩

/-- Helper: on a trace with no tick where a timeout coincides with the
terminating flag set, the loop consumes the whole trace without exiting and
passes every dequeued command to process_command. -/
theorem main_thread_loop_no_exit :
    ∀ tr : List SchedulerTick,
      (∀ t ∈ tr, t.grab = GrabResult.timeout → t.terminating = false) →
      VKScheduler.main_thread_loop tr = (dequeuedCommands tr, false) := by
  intro tr
  induction tr with
  | nil => intro _; rfl
  | cons t rest ih =>
    intro h
    have hrest : ∀ t' ∈ rest, t'.grab = GrabResult.timeout → t'.terminating = false :=
      fun t' ht' => h t' (List.mem_cons_of_mem _ ht')
    cases hg : t.grab with
    | timeout =>
      have ht : t.terminating = false := h t (List.mem_cons_self _ _) hg
      simp [VKScheduler.main_thread_loop, hg, ht, dequeuedCommands, ih hrest]
    | got c =>
      simp [VKScheduler.main_thread_loop, hg, dequeuedCommands, ih hrest]

/-- Helper: the loop runs until the first tick where a timeout is observed with
the terminating flag set; there it exits, having passed to process_command
exactly the commands dequeued before that tick, and ignores the rest of the
trace. -/
theorem main_thread_loop_exits_at_flagged_timeout :
    ∀ (pre : List SchedulerTick) (stop : SchedulerTick) (rest : List SchedulerTick),
      (∀ t ∈ pre, t.grab = GrabResult.timeout → t.terminating = false) →
      stop.grab = GrabResult.timeout →
      stop.terminating = true →
      VKScheduler.main_thread_loop (pre ++ stop :: rest) = (dequeuedCommands pre, true) := by
  intro pre
  induction pre with
  | nil =>
    intro stop rest _ hstop hterm
    simp [VKScheduler.main_thread_loop, hstop, hterm, dequeuedCommands]
  | cons t pre' ih =>
    intro stop rest h hstop hterm
    have hpre' : ∀ t' ∈ pre', t'.grab = GrabResult.timeout → t'.terminating = false :=
      fun t' ht' => h t' (List.mem_cons_of_mem _ ht')
    cases hg : t.grab with
    | timeout =>
      have ht : t.terminating = false := h t (List.mem_cons_self _ _) hg
      simp [VKScheduler.main_thread_loop, hg, ht, dequeuedCommands,
        ih stop rest hpre' hstop hterm]
    | got c =>
      simp [VKScheduler.main_thread_loop, hg, dequeuedCommands,
        ih stop rest hpre' hstop hterm]

/-- Claim C5: the worker loop exits only at a grab_with_timeout timeout
observed while the terminating flag is set — on such a tick it stops having
passed to process_command exactly the commands dequeued so far; on a timeout
with the flag unset it retries; and every successfully dequeued command is
passed to process_command, even when the terminating flag is already set at
that tick. -/
theorem scheduler_loop_exit_and_dispatch :
    (∀ (pre : List SchedulerTick) (stop : SchedulerTick) (rest : List SchedulerTick),
      (∀ t ∈ pre, t.grab = GrabResult.timeout → t.terminating = false) →
      stop.grab = GrabResult.timeout →
      stop.terminating = true →
      VKScheduler.main_thread_loop (pre ++ stop :: rest) = (dequeuedCommands pre, true)) ∧
    (∀ tr : List SchedulerTick,
      (∀ t ∈ tr, t.grab = GrabResult.timeout → t.terminating = false) →
      VKScheduler.main_thread_loop tr = (dequeuedCommands tr, false)) :=
  ⟨main_thread_loop_exits_at_flagged_timeout, main_thread_loop_no_exit⟩

/-- Witness for C5: a concrete trace — a command dequeued while the flag is
already set (still processed), a timeout with the flag clear (retried), then a
timeout with the flag set (exit); a later command is never reached. -/
theorem scheduler_loop_exit_and_dispatch_witness :
    VKScheduler.main_thread_loop
        ([{ grab := GrabResult.got sampleBufferDataCommand, terminating := true },
          { grab := GrabResult.timeout, terminating := false }] ++
         { grab := GrabResult.timeout, terminating := true } ::
           [{ grab := GrabResult.got unrecognizedTagCommand, terminating := false }]) =
      ([sampleBufferDataCommand], true) := by
  rw [scheduler_loop_exit_and_dispatch.1
    [{ grab := GrabResult.got sampleBufferDataCommand, terminating := true },
     { grab := GrabResult.timeout, terminating := false }]
    { grab := GrabResult.timeout, terminating := true }
    [{ grab := GrabResult.got unrecognizedTagCommand, terminating := false }]
    (by decide) rfl rfl]
  rfl

/-- Claim C6: scheduler destruction, when the worker thread exists, performs in
order: set the terminating flag, join the worker thread, release the command
ring buffer; and in every destructor trace the ring-buffer release strictly
follows the join, so the queue outlives the worker thread. -/
theorem scheduler_dtor_flag_join_release_order :
    VKScheduler.dtorTrace true =
      [DtorAction.setTerminatingFlag, DtorAction.joinSchedulerThread,
       DtorAction.releaseRingBuffer] ∧
    (∀ (b : Bool) (i j : Fin (VKScheduler.dtorTrace b).length),
      (VKScheduler.dtorTrace b).get i = DtorAction.joinSchedulerThread →
      (VKScheduler.dtorTrace b).get j = DtorAction.releaseRingBuffer →
      (i : Nat) < (j : Nat)) := by
  constructor
  · rfl
  · intro b
    cases b <;> decide

/-- Witness for C6: in the concrete destructor trace with the worker thread
running, the join sits at index 1 and the ring-buffer release at index 2. -/
theorem scheduler_dtor_flag_join_release_order_witness :
    VKScheduler.dtorTrace true =
      [DtorAction.setTerminatingFlag, DtorAction.joinSchedulerThread,
       DtorAction.releaseRingBuffer] ∧ (1 : Nat) < 2 :=
  ⟨scheduler_dtor_flag_join_release_order.1,
   scheduler_dtor_flag_join_release_order.2 true ⟨1, by decide⟩ ⟨2, by decide⟩ rfl rfl⟩
